import Mathlib

/-!
Verification development for a minimal HTTP/1.1 server (`myServer.py`).

The server's byte streams are modelled shallowly: a byte is a `Char`
(all inputs relevant to the claims are ASCII, so one byte per character),
a socket is a `ByteStream`, i.e. the list of chunks that successive
`recv` calls deliver.  Python exceptions are modelled as `Except.error`;
an `Except.error` produced by a framer or handler definition corresponds
to an uncaught Python exception propagating out of the modelled function.
Loops whose iteration count is bounded by the remaining stream size are
written with an explicit fuel parameter that the wrapper instantiates
with a strict upper bound on the number of iterations, so that all
definitions reduce by kernel evaluation.
-/

set_option maxRecDepth 4000
set_option maxHeartbeats 1000000

abbrev Bytes := List Char

abbrev ByteStream := List Bytes

/-- Buffer size used by every `sock.recv` call in the header loop (source line 12). -/
def BUFF_SIZE : Nat := 8192

/-- The CRLF line terminator, named `NEWLINE` as in the source (line 15). -/
def NEWLINE : String := "\r\n"

/-- The double-CRLF header terminator `HTTP_REQ_HEADER_END` (source line 17). -/
def HTTP_REQ_HEADER_END : Bytes := ['\r', '\n', '\r', '\n']

/-- Total number of bytes in a stream plus the number of chunks: a strict
upper bound on how many `recv` calls a loop that consumes at least one
byte or one chunk per iteration can make. -/
def streamSize (s : ByteStream) : Nat := (s.map List.length).sum + s.length

/-- One `sock.recv(n)` call: returns at most `n` bytes.  A chunk models the
data available in the kernel buffer at one moment, so a single `recv`
returns at most the first chunk (truncated to `n` bytes, the remainder
staying available).  An exhausted stream returns the empty byte string,
Python's end-of-stream signal; `recv 0` returns the empty byte string
immediately, as Python's `recv(0)` does. -/
def recv (n : Nat) : ByteStream → Bytes × ByteStream
  | [] => ([], [])
  | c :: rest =>
    if n = 0 then ([], c :: rest)
    else if c.length ≤ n then (c, rest)
    else (c.take n, c.drop n :: rest)

/-- Index of the first occurrence of `pat` as a contiguous subsequence,
modelling Python's `bytes.find` (the `none` case models `-1`). -/
def findSub (pat : Bytes) : Bytes → Option Nat
  | [] => if pat.isPrefixOf ([] : Bytes) then some 0 else none
  | c :: rest =>
    if pat.isPrefixOf (c :: rest) then some 0
    else (findSub pat rest).map (· + 1)

/-- Python's `pat in data` membership test on bytes. -/
def containsSub (pat data : Bytes) : Bool := (findSub pat data).isSome

/-- Python's `str.__contains__` (the `in` operator) on strings. -/
def pyContains (pat s : String) : Bool := containsSub pat.data s.data

/-- Fuelled worker for `splitOnSub`; each step consumes at least one
byte of `data`, so `data.length + 1` fuel always suffices. -/
def splitOnSubF (sep : Bytes) : Nat → Bytes → List Bytes
  | 0, data => [data]
  | fuel + 1, data =>
    match findSub sep data with
    | none => [data]
    | some i => data.take i :: splitOnSubF sep fuel (data.drop (i + sep.length))

/-- Python's `str.split(sep)` / `bytes.split(sep)` for a nonempty separator:
repeatedly cut at the first occurrence of `sep`. -/
def splitOnSub (sep data : Bytes) : List Bytes := splitOnSubF sep (data.length + 1) data

/-- Python's `str.split(sep)` at the `String` level. -/
def pySplitOn (sep s : String) : List String :=
  (splitOnSub sep.data s.data).map (fun l => String.mk l)

/-- Split a character list at every character satisfying `p`, keeping empty
pieces (the behaviour of Python's `str.split(c)` for a one-character
separator, applied pointwise). -/
def splitIfChars (p : Char → Bool) : Bytes → List Bytes
  | [] => [[]]
  | c :: rest =>
    match splitIfChars p rest with
    | [] => [[c]]
    | w :: ws => if p c then [] :: w :: ws else (c :: w) :: ws

/-- Python's whitespace-run `str.split()` (no separator argument): split at
whitespace and drop the empty pieces. -/
def pySplitWs (s : String) : List String :=
  ((splitIfChars Char.isWhitespace s.data).map (fun l => String.mk l)).filter
    (fun w => w ≠ "")

/-- Python's `"".join`-style `sep.join(parts)`. -/
def pyJoin (sep : String) : List String → String
  | [] => ""
  | [x] => x
  | x :: y :: ys => x ++ sep ++ pyJoin sep (y :: ys)

/-- `sep`-interleaved concatenation of byte lists (the byte-level image of
`pyJoin`). -/
def intercalateList (sep : Bytes) : List Bytes → Bytes
  | [] => []
  | [x] => x
  | x :: y :: ys => x ++ sep ++ intercalateList sep (y :: ys)

/-- Python's `bytes.decode("utf-8")`.  Bytes are modelled as characters,
and every byte the claims exercise is ASCII, so decoding succeeds exactly
on ASCII content and is the identity there; a byte outside the ASCII
range models a decoding error. -/
def decodeUtf8 (b : Bytes) : Except String String :=
  if b.all (fun c => c.toNat < 128) then Except.ok (String.mk b)
  else Except.error ("UnicodeDecodeError")

/-- Python's ASCII `str.lower` on one character (the header names the
claims concern are ASCII). -/
def asciiLower (c : Char) : Char :=
  if 'A' ≤ c ∧ c ≤ 'Z' then Char.ofNat (c.toNat + 32) else c

/-- Drop leading and trailing whitespace, Python's `str.strip()` as used
by `int()`. -/
def trimChars (l : Bytes) : Bytes :=
  ((l.dropWhile Char.isWhitespace).reverse.dropWhile Char.isWhitespace).reverse

/-- Decimal value of a digit run, `none` if empty or a non-digit appears. -/
def digitsVal : Bytes → Option Nat
  | [] => none
  | [c] => if c.isDigit then some (c.toNat - 48) else none
  | c :: d :: rest =>
    if c.isDigit then
      match digitsVal (d :: rest) with
      | some n => some ((c.toNat - 48) * 10 ^ (d :: rest).length + n)
      | none => none
    else none

/-- Python's `int(str)`: strip whitespace, optional sign, decimal digits;
anything else raises `ValueError`. -/
def pyInt (s : String) : Except String Int :=
  match trimChars s.data with
  | [] => Except.error ("ValueError: invalid literal for int")
  | c :: rest =>
    if c = '-' then
      match digitsVal rest with
      | some n => Except.ok (-(n : Int))
      | none => Except.error ("ValueError: invalid literal for int")
    else if c = '+' then
      match digitsVal rest with
      | some n => Except.ok (n : Int)
      | none => Except.error ("ValueError: invalid literal for int")
    else
      match digitsVal (c :: rest) with
      | some n => Except.ok (n : Int)
      | none => Except.error ("ValueError: invalid literal for int")

/-- Last-occurrence-wins lookup: the value a Python `dict` built by
inserting the pairs in order associates to `k`. -/
def lookupLast (kvs : List (String × String)) (k : String) : Option String :=
  match kvs with
  | [] => none
  | kv :: rest =>
    match lookupLast rest k with
    | some v => some v
    | none => if kv.1 = k then some kv.2 else none

/-- The parsed request (source class `Request`, lines 20-39): method, path
with its leading character stripped, lower-cased header map, decoded body. -/
structure Request where
  method : String
  path : String
  headers : List (String × String)
  content : String
deriving DecidableEq

/-- Python's `path[1:]` slice: drop the first character. -/
def strTail (s : String) : String := String.mk (s.data.drop 1)

/-- `Request.__init__` (source lines 34-39).  The tuple unpacking
`self.method, self.path, *_ = start_line.split()` raises `ValueError`
when the start line splits into fewer than two words; the error value
models that uncaught exception. -/
def Request.make (start_line : String) (headers : List (String × String))
    (content : String) : Except String Request :=
  match pySplitWs start_line with
  | m :: p :: _ => Except.ok { method := m, path := strTail p, headers := headers, content := content }
  | _ => Except.error ("ValueError: not enough values to unpack (expected at least 2)")

/-- `to_tuple` inside `recv_until_crlfs` (source lines 43-45):
`kvstr.split(":", 1)` splits at the first colon only, so the value keeps
any embedded colons; a line without a colon raises `ValueError`. -/
def to_tuple (kvstr : String) : Except String (String × String) :=
  match findSub [':'] kvstr.data with
  | some i =>
    Except.ok (String.mk ((kvstr.data.take i).map asciiLower), String.mk (kvstr.data.drop (i + 1)))
  | none => Except.error ("ValueError: not enough values to unpack (expected 2, got 1)")

/-- `dict(map(to_tuple, header_list[1:]))`: parse every header line, the
first failure propagating as in Python. -/
def parseHeaderLines : List String → Except String (List (String × String))
  | [] => Except.ok []
  | l :: ls =>
    match to_tuple l with
    | Except.error e => Except.error e
    | Except.ok kv =>
      match parseHeaderLines ls with
      | Except.error e => Except.error e
      | Except.ok rest => Except.ok (kv :: rest)

/-- State accumulated by the header-reading loop of `recv_until_crlfs`
(source lines 47-62). -/
structure FrameState where
  header_data : Bytes
  content : Bytes
  content_bytes_read : Nat
  rest : ByteStream
deriving DecidableEq

/-- The header-reading loop of `recv_until_crlfs` (source lines 50-62):
receive chunks, break with a split when the double CRLF lies inside the
chunk just received — the source checks `HTTP_REQ_HEADER_END in data`,
i.e. only the current chunk — otherwise append the chunk to
`header_data` and continue; an empty receive (EOF) also breaks.  The
fuel argument strictly exceeds the possible number of iterations
whenever it is at least `streamSize` of the remaining stream plus one,
since every non-breaking iteration consumes at least one byte. -/
def recvHeaderLoopF : Nat → ByteStream → Bytes → FrameState
  | 0, stream, header_data =>
    { header_data := header_data, content := [], content_bytes_read := 0, rest := stream }
  | fuel + 1, stream, header_data =>
    let r := recv BUFF_SIZE stream
    if r.1 = [] then
      { header_data := header_data, content := [], content_bytes_read := 0, rest := r.2 }
    else
      match findSub HTTP_REQ_HEADER_END r.1 with
      | some header_end_idx =>
        { header_data := header_data ++ r.1.take header_end_idx,
          content := r.1.drop (header_end_idx + 4),
          content_bytes_read := (max 0 ((r.1.length : Int) - header_end_idx - 4)).toNat,
          rest := r.2 }
      | none => recvHeaderLoopF fuel r.2 (header_data ++ r.1)

/-- The `while True: data = sock.recv(BUFF_SIZE) ... content += data` loop
used when content arrived without a content-length header (source lines
70-74): read chunks until the stream signals EOF. -/
def readAllF : Nat → ByteStream → Bytes
  | 0, _ => []
  | fuel + 1, stream =>
    let r := recv BUFF_SIZE stream
    if r.1 = [] then [] else r.1 ++ readAllF fuel r.2

/-- The body-completion logic of `recv_until_crlfs` (source lines 67-78):
nothing more is read when no body bytes arrived with the header chunk;
otherwise, with no `content-length` header the stream is read to EOF, and
with one the code issues a single `recv` for the missing byte count. -/
def completeContent (content_bytes_read : Nat) (content : Bytes)
    (header_kvs : List (String × String)) (rest : ByteStream) : Except String Bytes :=
  if content_bytes_read ≠ 0 then
    match lookupLast header_kvs ("content-length") with
    | none => Except.ok (content ++ readAllF (streamSize rest + 1) rest)
    | some v =>
      match pyInt v with
      | Except.error e => Except.error e
      | Except.ok content_len =>
        let to_recv := (max 0 (content_len - (content_bytes_read : Int))).toNat
        Except.ok (content ++ (recv to_recv rest).1)
  else Except.ok content

/-- `recv_until_crlfs` (source lines 42-79): read until the header
terminator is found, decode and split the header block, parse the header
lines, complete the body, decode it, and construct the `Request`. -/
def recv_until_crlfs (stream : ByteStream) : Except String Request :=
  let st := recvHeaderLoopF (streamSize stream + 1) stream []
  match decodeUtf8 st.header_data with
  | Except.error e => Except.error e
  | Except.ok headers =>
    let header_list := pySplitOn NEWLINE headers
    match parseHeaderLines (header_list.drop 1) with
    | Except.error e => Except.error e
    | Except.ok header_kvs =>
      match completeContent st.content_bytes_read st.content header_kvs st.rest with
      | Except.error e => Except.error e
      | Except.ok contentBytes =>
        match decodeUtf8 contentBytes with
        | Except.error e => Except.error e
        | Except.ok contentStr => Request.make (header_list.headD ("")) header_kvs contentStr

/-- The filesystem the server consults, an external collaborator (spec §1):
whether a path exists, whether its POSIX "other" class has read
permission, and its contents (text and binary reads both return the
file's bytes, modelled as characters). -/
structure FileSystem where
  pathExists : String → Bool
  otherRead : String → Bool
  fileData : String → String

/-- `file_exists` (source lines 113-116). -/
def file_exists (fs : FileSystem) (file_name : String) : Bool := fs.pathExists file_name

/-- `has_permission_other` (source lines 97-110): the `S_IROTH` bit test,
modelled by the filesystem oracle. -/
def has_permission_other (fs : FileSystem) (file_name : String) : Bool :=
  fs.otherRead file_name

/-- `get_file_contents` (source lines 86-89). -/
def get_file_contents (fs : FileSystem) (file_name : String) : String :=
  fs.fileData file_name

/-- `get_file_binary_contents` (source lines 92-95); binary reads return the
same bytes of the same file. -/
def get_file_binary_contents (fs : FileSystem) (file_name : String) : String :=
  fs.fileData file_name

/-- `binary_type_files` (source line 126). -/
def binary_type_files : List String :=
  ["jpg", "jpeg", "png", "gif", "pdf", "mp3", "wav", "avi", "mp4", "mov"]

/-- `should_return_binary` (source lines 129-134). -/
def should_return_binary (file_extension : String) : Bool :=
  binary_type_files.contains file_extension

/-- `mime_types` (source lines 144-159). -/
def mime_types : List (String × String) :=
  [("html", "text/html"), ("css", "text/css"), ("js", "application/javascript"),
   ("json", "application/json"), ("jpg", "image/jpeg"), ("jpeg", "image/jpeg"),
   ("png", "image/png"), ("gif", "image/gif"), ("pdf", "application/pdf"),
   ("mp4", "video/mp4"), ("ogg", "audio/ogg"), ("wav", "audio/wav"),
   ("txt", "text/plain"), ("mp3", "audio/mp3")]

/-- `get_file_mime_type` (source lines 162-170). -/
def get_file_mime_type (file_extension : String) : String :=
  match mime_types.lookup file_extension with
  | none => "text/plain"
  | some m => m

/-- A value passed where the source annotates `Union[str, int]`
(`add_header`, `set_status`). -/
abbrev StrOrInt := String ⊕ Nat

/-- Python f-string formatting of a `Union[str, int]` value. -/
def formatVal : StrOrInt → String
  | Sum.inl s => s
  | Sum.inr n => Nat.repr n

/-- The header line `f"{header_key}: {header_value}"` built by `add_header`. -/
def headerLine (header_key : String) (header_value : StrOrInt) : String :=
  header_key ++ (": ") ++ formatVal header_value

/-- `ResponseBuilder` state (source lines 173-220): header lines in order,
optional status line, optional body bytes. -/
structure ResponseBuilder where
  headers : List String
  status : Option String
  content : Option String
deriving DecidableEq

/-- `ResponseBuilder.__init__` (source lines 179-185). -/
def ResponseBuilder.init : ResponseBuilder :=
  { headers := [], status := none, content := none }

/-- `add_header` (source lines 187-189): appends one formatted header line. -/
def ResponseBuilder.add_header (b : ResponseBuilder) (header_key : String)
    (header_value : StrOrInt) : ResponseBuilder :=
  { b with headers := b.headers ++ [headerLine header_key header_value] }

/-- `set_status` (source lines 191-193). -/
def ResponseBuilder.set_status (b : ResponseBuilder) (status_code : StrOrInt)
    (status_message : String) : ResponseBuilder :=
  { b with status := some (("HTTP/1.1 ") ++ formatVal status_code ++ (" ") ++ status_message) }

/-- `set_content` (source lines 195-200): stores the body bytes (text is
encoded to UTF-8; bytes are kept; both are the same character data in
this model). -/
def ResponseBuilder.set_content (b : ResponseBuilder) (content : String) : ResponseBuilder :=
  { b with content := some content }

/-- `build` (source lines 202-220): `status + CRLF + CRLF.join(headers) +
CRLF + CRLF`, then the body appended only when `self.content` is truthy —
`None` and the empty byte string are both falsy, so an empty body is
omitted exactly like an unset one.  A `None` status makes the string
concatenation raise `TypeError`, modelled by the error value. -/
def ResponseBuilder.build (b : ResponseBuilder) : Except String String :=
  match b.status with
  | none => Except.error ("TypeError: unsupported operand type for +: NoneType and str")
  | some st =>
    let out := st ++ NEWLINE ++ pyJoin NEWLINE b.headers ++ NEWLINE ++ NEWLINE
    match b.content with
    | some c => if c = "" then Except.ok out else Except.ok (out ++ c)
    | none => Except.ok out

/-- `parse_post_request` (source lines 222-226): split the body on `&`,
split each pair on every `=`, and unpack each piece as exactly two
values — a piece without `=`, or with several, raises `ValueError`. -/
def parse_post_request (content : String) : Except String String :=
  let attributes := (pySplitOn ("&") content).map (fun pair => pySplitOn ("=") pair)
  match rowsOf attributes with
  | Except.error e => Except.error e
  | Except.ok table_rows => Except.ok (("<table>") ++ String.join table_rows ++ ("</table>"))
where
  /-- The `for key, value in attributes` table-row comprehension, with the
  two-element unpacking of each pair. -/
  rowsOf : List (List String) → Except String (List String)
  | [] => Except.ok []
  | [key, value] :: rest =>
    match rowsOf rest with
    | Except.error e => Except.error e
    | Except.ok rs =>
      Except.ok ((("<tr><td>") ++ key ++ ("</td><td>") ++ value ++ ("</td></tr>")) :: rs)
  | _ :: _ => Except.error ("ValueError: not enough values to unpack (expected 2)")

/-- UTF-8 encoding of one character as byte values. -/
def utf8Bytes (c : Char) : List Nat :=
  let n := c.toNat
  if n < 128 then [n]
  else if n < 2048 then [192 + n / 64, 128 + n % 64]
  else if n < 65536 then [224 + n / 4096, 128 + (n / 64) % 64, 128 + n % 64]
  else [240 + n / 262144, 128 + (n / 4096) % 64, 128 + (n / 64) % 64, 128 + n % 64]

/-- Upper-case hexadecimal digit, as `urllib.parse.quote` emits. -/
def hexDigit (n : Nat) : Char := if n < 10 then Char.ofNat (48 + n) else Char.ofNat (55 + n)

/-- Percent-encoding of one character for `quote_plus`: ASCII letters,
digits and `_.-~` pass through, a space becomes `+`, anything else is
percent-encoded byte by byte. -/
def quoteChar (c : Char) : List Char :=
  if c.isAlphanum ∨ c = '_' ∨ c = '.' ∨ c = '-' ∨ c = '~' then [c]
  else if c = ' ' then ['+']
  else (utf8Bytes c).foldr (fun b acc => '%' :: hexDigit (b / 16) :: hexDigit (b % 16) :: acc) []

/-- `urllib.parse.quote_plus`. -/
def quote_plus (s : String) : String :=
  String.mk (s.data.foldr (fun c acc => quoteChar c ++ acc) [])

/-- Value of one hexadecimal digit character. -/
def hexVal (c : Char) : Option Nat :=
  if '0' ≤ c ∧ c ≤ '9' then some (c.toNat - 48)
  else if 'A' ≤ c ∧ c ≤ 'F' then some (c.toNat - 55)
  else if 'a' ≤ c ∧ c ≤ 'f' then some (c.toNat - 87)
  else none

/-- Worker for `unquote_plus`: `+` becomes a space and `%XY` becomes the
byte `0xXY` (bytes are characters in this model); malformed escapes pass
through unchanged, as in `urllib.parse.unquote`. -/
def unquotePlusChars : Bytes → Bytes
  | [] => []
  | '+' :: rest => ' ' :: unquotePlusChars rest
  | '%' :: a :: b :: rest =>
    match hexVal a, hexVal b with
    | some x, some y => Char.ofNat (16 * x + y) :: unquotePlusChars rest
    | _, _ => '%' :: unquotePlusChars (a :: b :: rest)
  | c :: rest => c :: unquotePlusChars rest

/-- `urllib.parse.unquote_plus`. -/
def unquote_plus (s : String) : String := String.mk (unquotePlusChars s.data)

/-- The query component `urllib.parse.urlparse` extracts from a relative
reference: the part after the first `?` of the pre-fragment portion.
Modelled from `urlparse` restricted to the request targets this server
sees (no scheme, no netloc). -/
def urlparse_query (url : String) : String :=
  let noFrag :=
    match findSub ['#'] url.data with
    | some i => url.data.take i
    | none => url.data
  match findSub ['?'] noFrag with
  | some i => String.mk (noFrag.drop (i + 1))
  | none => ""

/-- `urllib.parse.parse_qsl` with default arguments: split the query on
`&`, skip empty pieces, skip pieces without `=`, skip pairs whose value
is empty, and percent-plus-decode both key and value. -/
def parse_qsl (qs : String) : List (String × String) :=
  (pySplitOn ("&") qs).filterMap (fun pair =>
    if pair = "" then none
    else
      match findSub ['='] pair.data with
      | none => none
      | some i =>
        let v := pair.data.drop (i + 1)
        if v = [] then none
        else some (unquote_plus (String.mk (pair.data.take i)), unquote_plus (String.mk v)))

/-- `params.get(key, [''])[0]` over `parse_qs(qs)`: the first value listed
for `key`, or the empty string. -/
def parse_qs_get (qs key : String) : String :=
  match (parse_qsl qs).find? (fun kv => kv.1 == key) with
  | some kv => kv.2
  | none => ""

/-- `build_url` (source lines 228-240): extract `text` and `selector` from
the query string and build the YouTube or Google search URL; any other
selector returns `None`. -/
def build_url (query : String) : Option String :=
  let parsed_query := urlparse_query query
  let text := parse_qs_get parsed_query ("text")
  let selector := parse_qs_get parsed_query ("selector")
  if selector = "youtube" then
    some (("https://www.youtube.com/results?search_query=") ++ quote_plus text)
  else if selector = "google" then
    some (("https://www.google.com/search?q=") ++ quote_plus text)
  else none

/-- `HTTPServer.get_request` (source lines 311-384) as the builder it
assembles: the redirect branch (a path containing `"redirect"`), the 404
branch for a missing path, the 403 branch for a missing "other" read
permission, and the 200 branch serving the file.  A `None` URL from
`build_url` is formatted as the string `"None"` by the f-string inside
`add_header`. -/
def get_request_builder (fs : FileSystem) (request : Request) : ResponseBuilder :=
  let builder := ResponseBuilder.init
  if pyContains ("redirect") request.path then
    let builder := builder.set_status (Sum.inl ("307")) ("Redirect")
    let url := build_url request.path
    builder.add_header ("Location")
      (Sum.inl (match url with | some u => u | none => ("None")))
  else if !(file_exists fs request.path) then
    let builder := builder.set_status (Sum.inl ("404")) ("NOT FOUND")
    let content := get_file_contents fs ("404.html")
    let builder := builder.set_content content
    builder.add_header ("Connection") (Sum.inl ("close"))
  else if !(has_permission_other fs request.path) then
    let builder := builder.set_status (Sum.inl ("403")) ("FORBIDDEN")
    let content := get_file_contents fs ("403.html")
    let builder := builder.set_content content
    builder.add_header ("Connection") (Sum.inl ("close"))
  else
    let fileContents :=
      if should_return_binary ((pySplitOn (".") request.path).getLastD ("")) then
        get_file_binary_contents fs request.path
      else get_file_contents fs request.path
    let mimeType := get_file_mime_type ((pySplitOn (".") request.path).getLastD (""))
    let builder := builder.set_status (Sum.inl ("200")) ("OK")
    let builder := builder.add_header ("Content-Type") (Sum.inl mimeType)
    let builder := builder.add_header ("Connection") (Sum.inl ("close"))
    let builder := builder.add_header ("Content-Length") (Sum.inr fileContents.length)
    builder.set_content fileContents

/-- `HTTPServer.get_request` serialized. -/
def get_request (fs : FileSystem) (request : Request) : Except String String :=
  (get_request_builder fs request).build

/-- `HTTPServer.post_request` (source lines 388-425) as the builder it
assembles: decode the body with `unquote_plus`, render the table, set
status 200 and only the `Allow` and `Content-Length` headers. -/
def post_request_builder (request : Request) : Except String ResponseBuilder :=
  let unquoted_content := unquote_plus request.content
  match parse_post_request unquoted_content with
  | Except.error e => Except.error e
  | Except.ok fileContents =>
    let builder := ResponseBuilder.init
    let builder := builder.set_status (Sum.inl ("200")) ("OK")
    let builder := builder.add_header ("Allow") (Sum.inl ("POST"))
    let builder := builder.add_header ("Content-Length") (Sum.inr fileContents.length)
    Except.ok (builder.set_content fileContents)

/-- `HTTPServer.post_request` serialized. -/
def post_request (request : Request) : Except String String :=
  match post_request_builder request with
  | Except.error e => Except.error e
  | Except.ok b => b.build

/-- `HTTPServer.head_request` (source lines 428-452). -/
def head_request (fs : FileSystem) (request : Request) : Except String String :=
  let builder := ResponseBuilder.init
  let builder := builder.set_status (Sum.inl ("200")) ("OK")
  let builder :=
    if !(file_exists fs request.path) then
      builder.set_status (Sum.inl ("404")) ("NOT FOUND")
    else if !(has_permission_other fs request.path) then
      builder.set_status (Sum.inl ("403")) ("FORBIDDEN")
    else builder
  let builder := builder.add_header ("Allow") (Sum.inl ("HEAD"))
  let builder := builder.add_header ("Connection") (Sum.inl ("close"))
  builder.build

/-- `HTTPServer.method_not_allowed` (source lines 454-464). -/
def method_not_allowed : Except String String :=
  let builder := ResponseBuilder.init
  let builder := builder.set_status (Sum.inl ("405")) ("METHOD NOT ALLOWED")
  let builder := builder.add_header ("Connection") (Sum.inl ("close"))
  builder.build

/-- `HTTPServer.process_response` (source lines 285-292): dispatch on the
request method. -/
def process_response (fs : FileSystem) (request : Request) : Except String String :=
  if request.method = "GET" then get_request fs request
  else if request.method = "POST" then post_request request
  else if request.method = "HEAD" then head_request fs request
  else method_not_allowed

/-- The CRLF pair as bytes. -/
def CRLFb : Bytes := ['\r', '\n']

/-- Number of positions at which `pat` occurs in `l` (overlaps counted). -/
def countSub (pat l : Bytes) : Nat :=
  ((List.range (l.length + 1)).filter (fun i => pat.isPrefixOf (l.drop i))).length

/-- Whether the builder carries a header entry whose line starts with
`k` followed by a colon, i.e. whether `add_header` was called for `k`. -/
def hasHeaderB (b : ResponseBuilder) (k : String) : Bool :=
  b.headers.any (fun h => (k ++ (":")).data.isPrefixOf h.data)

/-- A string with no ASCII uppercase letter, the meaning of "all
lower-case" for header names. -/
def keyIsLower (s : String) : Bool := s.data.all (fun c => !c.isUpper)

instance {ε α : Type} [DecidableEq ε] [DecidableEq α] : DecidableEq (Except ε α)
  | Except.error a, Except.error b =>
    if h : a = b then isTrue (by rw [h]) else isFalse (by intro hc; cases hc; exact h rfl)
  | Except.error _, Except.ok _ => isFalse (by intro hc; cases hc)
  | Except.ok _, Except.error _ => isFalse (by intro hc; cases hc)
  | Except.ok a, Except.ok b =>
    if h : a = b then isTrue (by rw [h]) else isFalse (by intro hc; cases hc; exact h rfl)

theorem strExt (a b : String) (h : a.data = b.data) : a = b := by
  cases a; cases b; exact congrArg String.mk h

theorem strData_append (a b : String) : (a ++ b).data = a.data ++ b.data := by
  cases a; cases b; rfl

theorem str_append_empty (s : String) : s ++ ("") = s := by
  apply strExt
  rw [strData_append]
  show s.data ++ [] = s.data
  simp

theorem take_append_self (a b : Bytes) : (a ++ b).take a.length = a :=
  List.take_left a b

theorem drop_append_self (a b : Bytes) : (a ++ b).drop a.length = b :=
  List.drop_left a b

theorem isPrefixOf_length_le (p l : Bytes) (h : p.isPrefixOf l = true) :
    p.length ≤ l.length := by
  induction p generalizing l with
  | nil => simp
  | cons c cs ih =>
    cases l with
    | nil => simp [List.isPrefixOf] at h
    | cons d ds =>
      simp only [List.isPrefixOf, Bool.and_eq_true] at h
      simpa using ih ds h.2

theorem isPrefixOf_self_append (l x : Bytes) : l.isPrefixOf (l ++ x) = true := by
  induction l with
  | nil => cases x <;> rfl
  | cons c cs ih => simp [List.isPrefixOf, ih]

theorem append_isPrefixOf_append (a b c : Bytes) :
    (a ++ b).isPrefixOf (a ++ c) = b.isPrefixOf c := by
  induction a with
  | nil => rfl
  | cons x xs ih => simp [List.isPrefixOf, ih]

theorem isPrefixOf_append_of_length_le (p a b : Bytes) (h : p.length ≤ a.length) :
    p.isPrefixOf (a ++ b) = p.isPrefixOf a := by
  induction p generalizing a with
  | nil => simp [List.isPrefixOf]
  | cons c cs ih =>
    cases a with
    | nil => simp at h
    | cons d ds =>
      simp only [List.cons_append, List.isPrefixOf, List.append_eq]
      rw [ih ds (by simpa using h)]

theorem findSub_isPrefixOf (pat l : Bytes) (k : Nat) (h : findSub pat l = some k) :
    pat.isPrefixOf (l.drop k) = true := by
  induction l generalizing k with
  | nil =>
    unfold findSub at h
    split at h
    · next hp => cases h; exact hp
    · cases h
  | cons c rest ih =>
    unfold findSub at h
    split at h
    · next hp => cases h; exact hp
    · next hp =>
      cases hr : findSub pat rest with
      | none => rw [hr] at h; cases h
      | some k' =>
        rw [hr] at h
        simp only [Option.map_some'] at h
        cases h
        exact ih k' hr

theorem findSub_min (pat l : Bytes) (k : Nat) (h : findSub pat l = some k) :
    ∀ i, i < k → pat.isPrefixOf (l.drop i) = false := by
  induction l generalizing k with
  | nil =>
    intro i hi
    unfold findSub at h
    split at h
    · cases h; omega
    · cases h
  | cons c rest ih =>
    intro i hi
    unfold findSub at h
    split at h
    · cases h; omega
    · next hp =>
      cases hr : findSub pat rest with
      | none => rw [hr] at h; cases h
      | some k' =>
        rw [hr] at h
        simp only [Option.map_some'] at h
        cases h
        cases i with
        | zero => exact Bool.not_eq_true _ |>.mp hp
        | succ j => exact ih k' hr j (by omega)

theorem findSub_cons_skip (pc : Char) (pt : Bytes) (c : Char) (l : Bytes) (h : c ≠ pc) :
    findSub (pc :: pt) (c :: l) = (findSub (pc :: pt) l).map (· + 1) := by
  have hp : ¬ ((pc :: pt).isPrefixOf (c :: l) = true) := by
    simp only [List.isPrefixOf, Bool.and_eq_true, beq_iff_eq]
    intro hc
    exact h hc.1.symm
  conv_lhs => rw [findSub]
  rw [if_neg hp]

theorem findSub_append_skip (pc : Char) (pt A X : Bytes) (h : ∀ c ∈ A, c ≠ pc) :
    findSub (pc :: pt) (A ++ X) = (findSub (pc :: pt) X).map (· + A.length) := by
  induction A with
  | nil =>
    show findSub (pc :: pt) X = (findSub (pc :: pt) X).map (· + 0)
    cases findSub (pc :: pt) X <;> simp
  | cons c cs ih =>
    simp only [List.cons_append]
    rw [findSub_cons_skip pc pt c _ (h c (by simp))]
    rw [ih (fun d hd => h d (by simp [hd]))]
    cases findSub (pc :: pt) X with
    | none => rfl
    | some i =>
      simp only [Option.map_some', List.length_cons, Option.some.injEq]
      omega

theorem findSub_self (pat X : Bytes) (h : pat ≠ []) : findSub pat (pat ++ X) = some 0 := by
  cases pat with
  | nil => exact absurd rfl h
  | cons c cs =>
    simp only [List.cons_append]
    conv_lhs => rw [findSub]
    rw [if_pos]
    show (c :: cs).isPrefixOf (c :: (cs ++ X)) = true
    exact isPrefixOf_self_append (c :: cs) X

theorem findSub_none_of_no_head (pc : Char) (pt l : Bytes) (h : ∀ c ∈ l, c ≠ pc) :
    findSub (pc :: pt) l = none := by
  induction l with
  | nil => rfl
  | cons c cs ih =>
    rw [findSub_cons_skip pc pt c cs (h c (by simp))]
    rw [ih (fun d hd => h d (by simp [hd]))]
    rfl


theorem findSub_term_skip2 (x : Char) (xs : Bytes) (h : x ≠ '\r') :
    findSub HTTP_REQ_HEADER_END ('\r' :: '\n' :: x :: xs)
      = (findSub HTTP_REQ_HEADER_END (x :: xs)).map (· + 2) := by
  have h0 : ¬ (HTTP_REQ_HEADER_END.isPrefixOf ('\r' :: '\n' :: x :: xs) = true) := by
    simp only [HTTP_REQ_HEADER_END, List.isPrefixOf, Bool.and_eq_true, beq_iff_eq]
    intro hc
    exact h hc.2.2.1.symm
  have h1 : ¬ (HTTP_REQ_HEADER_END.isPrefixOf ('\n' :: x :: xs) = true) := by
    simp only [HTTP_REQ_HEADER_END, List.isPrefixOf, Bool.and_eq_true, beq_iff_eq]
    intro hc
    exact absurd hc.1 (by decide)
  conv_lhs => rw [findSub]
  rw [if_neg h0]
  conv_lhs => rw [findSub]
  rw [if_neg h1]
  cases findSub HTTP_REQ_HEADER_END (x :: xs) with
  | none => rfl
  | some i => simp only [Option.map_some', Option.some.injEq]

theorem intercalate_cons_head (sep q : Bytes) (r : List Bytes) :
    ∃ t, intercalateList sep (q :: r) = q ++ t := by
  cases r with
  | nil => exact ⟨[], by simp [intercalateList]⟩
  | cons y ys => exact ⟨sep ++ intercalateList sep (y :: ys), by simp [intercalateList]⟩

theorem findSub_term_payload (parts : List Bytes) (B : Bytes)
    (hne : parts ≠ [])
    (hp : ∀ p ∈ parts, p ≠ [] ∧ '\r' ∉ p) :
    findSub HTTP_REQ_HEADER_END (intercalateList CRLFb parts ++ (HTTP_REQ_HEADER_END ++ B))
      = some (intercalateList CRLFb parts).length := by
  induction parts with
  | nil => exact absurd rfl hne
  | cons p rest ih =>
    have hpr : ∀ c ∈ p, c ≠ '\r' := by
      intro c hc he
      exact (hp p (by simp)).2 (he ▸ hc)
    cases rest with
    | nil =>
      show findSub HTTP_REQ_HEADER_END (p ++ (HTTP_REQ_HEADER_END ++ B)) = some p.length
      have : HTTP_REQ_HEADER_END = '\r' :: ['\n', '\r', '\n'] := rfl
      rw [this] at *
      rw [findSub_append_skip '\r' ['\n', '\r', '\n'] p _ hpr]
      rw [findSub_self ('\r' :: ['\n', '\r', '\n']) B (by simp)]
      simp
    | cons q rest' =>
      have hstep : intercalateList CRLFb (p :: q :: rest')
          = p ++ (CRLFb ++ intercalateList CRLFb (q :: rest')) := by
        simp [intercalateList]
      rw [hstep]
      rw [List.append_assoc]
      have hterm : HTTP_REQ_HEADER_END = '\r' :: ['\n', '\r', '\n'] := rfl
      rw [hterm, findSub_append_skip '\r' ['\n', '\r', '\n'] p _ hpr, ← hterm]
      obtain ⟨t, ht⟩ := intercalate_cons_head CRLFb q rest'
      have hq : q ≠ [] := (hp q (by simp)).1
      obtain ⟨qc, qt, hqq⟩ : ∃ qc qt, q = qc :: qt := by
        cases q with
        | nil => exact absurd rfl hq
        | cons a b => exact ⟨a, b, rfl⟩
      have hqc : qc ≠ '\r' := by
        intro he
        exact (hp q (by simp)).2 (by rw [hqq, he]; simp)
      have hshape : CRLFb ++ intercalateList CRLFb (q :: rest') ++ (HTTP_REQ_HEADER_END ++ B)
          = '\r' :: '\n' :: (qc :: (qt ++ t ++ (HTTP_REQ_HEADER_END ++ B))) := by
        rw [ht, hqq]
        simp [CRLFb]
      rw [hshape]
      rw [findSub_term_skip2 qc _ hqc]
      have hrec := ih (by simp) (fun r hr => hp r (by simp [hr]))
      have hback : qc :: (qt ++ t ++ (HTTP_REQ_HEADER_END ++ B))
          = intercalateList CRLFb (q :: rest') ++ (HTTP_REQ_HEADER_END ++ B) := by
        rw [ht, hqq]
        simp
      rw [hback, hrec]
      simp only [Option.map_some', Option.some.injEq]
      simp only [List.length_append, CRLFb, List.length_cons, List.length_nil]
      omega

theorem splitOnSubF_crlf_intercalate (parts : List Bytes) :
    ∀ fuel, (intercalateList CRLFb parts).length < fuel → parts ≠ [] →
      (∀ p ∈ parts, '\r' ∉ p) →
      splitOnSubF CRLFb fuel (intercalateList CRLFb parts) = parts := by
  induction parts with
  | nil => intro _ _ h _; exact absurd rfl h
  | cons p rest ih =>
    intro fuel hf _ hp
    have hpr : ∀ c ∈ p, c ≠ '\r' := by
      intro c hc he
      exact (hp p (by simp)) (he ▸ hc)
    cases rest with
    | nil =>
      cases fuel with
      | zero => omega
      | succ f =>
        show splitOnSubF CRLFb (f + 1) (intercalateList CRLFb [p]) = [p]
        have hone : intercalateList CRLFb [p] = p := rfl
        rw [hone]
        unfold splitOnSubF
        rw [show CRLFb = '\r' :: ['\n'] from rfl, findSub_none_of_no_head '\r' ['\n'] p hpr]
    | cons q rest' =>
      cases fuel with
      | zero => omega
      | succ f =>
        have hstep : intercalateList CRLFb (p :: q :: rest')
            = p ++ (CRLFb ++ intercalateList CRLFb (q :: rest')) := by
          simp [intercalateList]
        have hfind : findSub CRLFb (intercalateList CRLFb (p :: q :: rest')) = some p.length := by
          rw [hstep]
          rw [show CRLFb = '\r' :: ['\n'] from rfl, findSub_append_skip '\r' ['\n'] p _ hpr]
          rw [findSub_self ('\r' :: ['\n']) _ (by simp)]
          simp
        conv_lhs => rw [splitOnSubF]
        rw [hfind]
        dsimp only
        have htake : (intercalateList CRLFb (p :: q :: rest')).take p.length = p := by
          rw [hstep]
          exact take_append_self p _
        have hdrop : (intercalateList CRLFb (p :: q :: rest')).drop (p.length + CRLFb.length)
            = intercalateList CRLFb (q :: rest') := by
          rw [hstep, ← List.append_assoc]
          have : (p ++ CRLFb).length = p.length + CRLFb.length := by simp
          rw [← this]
          exact drop_append_self (p ++ CRLFb) _
        rw [htake, hdrop]
        have hlen : (intercalateList CRLFb (q :: rest')).length < f := by
          rw [hstep] at hf
          simp only [List.length_append] at hf
          have : CRLFb.length = 2 := rfl
          omega
        rw [ih f hlen (by simp) (fun r hr => hp r (by simp [hr]))]

theorem asciiLower_not_upper (c : Char) : (asciiLower c).isUpper = false := by
  unfold asciiLower
  split
  · next h =>
    have h1 : 65 ≤ c.toNat := h.1
    have h2 : c.toNat ≤ 90 := h.2
    have hv : (c.toNat + 32).isValidChar := Or.inl (by omega)
    have ht : (Char.ofNat (c.toNat + 32)).toNat = c.toNat + 32 := by
      rw [Char.ofNat, dif_pos hv]
      exact rfl
    have hu : Char.isUpper (Char.ofNat (c.toNat + 32))
        = ('A' ≤ Char.ofNat (c.toNat + 32) && Char.ofNat (c.toNat + 32) ≤ 'Z') := rfl
    rw [hu]
    have hn : ¬ (Char.ofNat (c.toNat + 32) ≤ 'Z') := by
      show ¬ ((Char.ofNat (c.toNat + 32)).toNat ≤ 90)
      rw [ht]
      omega
    simp [hn]
  · next h =>
    show ('A' ≤ c && c ≤ 'Z') = false
    by_cases h1 : 'A' ≤ c
    · by_cases h2 : c ≤ 'Z'
      · exact absurd ⟨h1, h2⟩ h
      · simp [h2]
    · simp [h1]

theorem intercalate_ascii (parts : List Bytes)
    (hp : ∀ p ∈ parts, ∀ c ∈ p, c.toNat < 128) :
    ∀ c ∈ intercalateList CRLFb parts, c.toNat < 128 := by
  induction parts with
  | nil => intro c hc; simp [intercalateList] at hc
  | cons p rest ih =>
    cases rest with
    | nil =>
      intro c hc
      exact hp p (by simp) c hc
    | cons q rest' =>
      intro c hc
      have hsh : intercalateList CRLFb (p :: q :: rest')
          = p ++ (CRLFb ++ intercalateList CRLFb (q :: rest')) := by simp [intercalateList]
      rw [hsh] at hc
      rcases List.mem_append.mp hc with h1 | h2
      · exact hp p (by simp) c h1
      · rcases List.mem_append.mp h2 with h3 | h4
        · have hcc : c = '\r' ∨ c = '\n' := by simpa [CRLFb] using h3
          rcases hcc with hccc | hccc <;> (rw [hccc]; decide)
        · exact ih (fun r hr => hp r (by simp [hr])) c h4

theorem pyJoin_data (sep : String) (l : List String) :
    (pyJoin sep l).data = intercalateList sep.data (l.map String.data) := by
  induction l with
  | nil => rfl
  | cons x xs ih =>
    cases xs with
    | nil => rfl
    | cons y ys =>
      show (x ++ sep ++ pyJoin sep (y :: ys)).data
          = x.data ++ sep.data ++ intercalateList sep.data ((y :: ys).map String.data)
      rw [strData_append, strData_append, ih]

theorem decodeUtf8_ok (b : Bytes) (h : ∀ c ∈ b, c.toNat < 128) :
    decodeUtf8 b = Except.ok (String.mk b) := by
  unfold decodeUtf8
  rw [if_pos]
  rw [List.all_eq_true]
  intro c hc
  simpa using h c hc

theorem parseHeaderLines_keys_lower (ls : List String) (ps : List (String × String))
    (h : parseHeaderLines ls = Except.ok ps) :
    ps.all (fun kv => keyIsLower kv.1) = true := by
  induction ls generalizing ps with
  | nil =>
    cases h
    rfl
  | cons l ls' ih =>
    unfold parseHeaderLines at h
    cases hl : to_tuple l with
    | error e => rw [hl] at h; cases h
    | ok kv =>
      rw [hl] at h
      cases hr : parseHeaderLines ls' with
      | error e => rw [hr] at h; cases h
      | ok rest =>
        rw [hr] at h
        cases h
        have hkv : keyIsLower kv.1 = true := by
          unfold to_tuple at hl
          cases hf : findSub [':'] l.data with
          | none => rw [hf] at hl; cases hl
          | some i =>
            rw [hf] at hl
            cases hl
            show (((l.data.take i).map asciiLower).all (fun c => !c.isUpper)) = true
            rw [List.all_eq_true]
            intro c hc
            obtain ⟨d, _, hd⟩ := List.mem_map.mp hc
            rw [← hd, asciiLower_not_upper d]
            rfl
        rw [List.all_cons, hkv, ih rest hr]
        rfl

theorem recv_single_chunk (payload : Bytes) (hlen : payload.length ≤ BUFF_SIZE) :
    recv BUFF_SIZE [payload] = (payload, []) := by
  unfold recv
  dsimp only
  rw [if_neg (by decide : ¬ (BUFF_SIZE = 0)), if_pos hlen]

theorem recvHeaderLoopF_single (fuel : Nat) (A body : Bytes)
    (hfind : findSub HTTP_REQ_HEADER_END (A ++ (HTTP_REQ_HEADER_END ++ body)) = some A.length)
    (hlen : (A ++ (HTTP_REQ_HEADER_END ++ body)).length ≤ BUFF_SIZE) :
    recvHeaderLoopF (fuel + 1) [A ++ (HTTP_REQ_HEADER_END ++ body)] []
      = { header_data := A, content := body, content_bytes_read := body.length, rest := [] } := by
  have hne : A ++ (HTTP_REQ_HEADER_END ++ body) ≠ [] := by
    intro hcontra
    have := congrArg List.length hcontra
    simp [HTTP_REQ_HEADER_END] at this
  simp only [recvHeaderLoopF, recv_single_chunk _ hlen]
  rw [if_neg hne, hfind]
  dsimp only
  have htake : (A ++ (HTTP_REQ_HEADER_END ++ body)).take A.length = A := take_append_self A _
  have hdrop : (A ++ (HTTP_REQ_HEADER_END ++ body)).drop (A.length + 4) = body := by
    have hsh : A ++ (HTTP_REQ_HEADER_END ++ body) = (A ++ HTTP_REQ_HEADER_END) ++ body := by
      simp
    have hl : (A ++ HTTP_REQ_HEADER_END).length = A.length + 4 := by
      simp [HTTP_REQ_HEADER_END]
    rw [hsh, ← hl]
    exact drop_append_self _ _
  have hcbr : (max 0 (((A ++ (HTTP_REQ_HEADER_END ++ body)).length : Int) - A.length - 4)).toNat
      = body.length := by
    simp only [List.length_append, HTTP_REQ_HEADER_END, List.length_cons, List.length_nil]
    omega
  rw [htake, hdrop, hcbr]
  simp

theorem completeContent_declared (body : Bytes) (pairs : List (String × String)) (v : String)
    (hlook : lookupLast pairs ("content-length") = some v)
    (hint : pyInt v = Except.ok (body.length : Int)) :
    completeContent body.length body pairs [] = Except.ok body := by
  by_cases hb : body.length = 0
  · have hbody : body = [] := List.length_eq_zero.mp hb
    subst hbody
    rfl
  · unfold completeContent
    rw [if_pos hb, hlook]
    dsimp only
    rw [hint]
    dsimp only
    have hz : (max 0 ((body.length : Int) - (body.length : Int))).toNat = 0 := by omega
    rw [hz]
    show Except.ok (body ++ (recv 0 []).1) = Except.ok body
    simp [recv]

theorem request_make_ok (s : String) (m p : String) (ws : List String)
    (pairs : List (String × String)) (content : String)
    (hs : pySplitWs s = m :: p :: ws) :
    Request.make s pairs content
      = Except.ok { method := m, path := strTail p, headers := pairs, content := content } := by
  unfold Request.make
  rw [hs]

theorem strData_mk (l : List Char) : (String.mk l).data = l := rfl

/-- Claim C8: for a valid request whose full payload (header block and
declared body) arrives within one buffered read, the framer returns a
request whose header keys are all lower-case — each line split at its
first colon with the whole remainder kept as the value, as `to_tuple`
does — and whose body is exactly the declared-length body of the
payload.  The hypotheses spell out validity: CR-free nonempty start and
header lines, ASCII content, a payload that fits in one `BUFF_SIZE`
read, header lines that parse, and a `content-length` entry whose parsed
value equals the body length. -/
theorem framer_single_read_request_ok
    (startLine : Bytes) (hdrLines : List Bytes) (body : Bytes)
    (m p : String) (ws : List String) (pairs : List (String × String)) (v : String)
    (hcr : ∀ l ∈ startLine :: hdrLines, l ≠ [] ∧ '\r' ∉ l)
    (hascii : ∀ l ∈ startLine :: hdrLines, ∀ c ∈ l, c.toNat < 128)
    (hbascii : ∀ c ∈ body, c.toNat < 128)
    (hlen : (intercalateList CRLFb (startLine :: hdrLines)
        ++ (HTTP_REQ_HEADER_END ++ body)).length ≤ BUFF_SIZE)
    (hparse : parseHeaderLines (hdrLines.map (fun l => String.mk l)) = Except.ok pairs)
    (hlook : lookupLast pairs ("content-length") = some v)
    (hint : pyInt v = Except.ok ((body.length : Int)))
    (hstart : pySplitWs (String.mk startLine) = m :: p :: ws) :
    recv_until_crlfs
        [intercalateList CRLFb (startLine :: hdrLines) ++ (HTTP_REQ_HEADER_END ++ body)]
      = Except.ok { method := m, path := strTail p, headers := pairs, content := String.mk body }
    ∧ pairs.all (fun kv => keyIsLower kv.1) = true := by
  refine ⟨?_, parseHeaderLines_keys_lower _ _ hparse⟩
  have hfind : findSub HTTP_REQ_HEADER_END
      (intercalateList CRLFb (startLine :: hdrLines) ++ (HTTP_REQ_HEADER_END ++ body))
      = some (intercalateList CRLFb (startLine :: hdrLines)).length :=
    findSub_term_payload _ _ (by simp) hcr
  have hloop := recvHeaderLoopF_single
    (streamSize [intercalateList CRLFb (startLine :: hdrLines) ++ (HTTP_REQ_HEADER_END ++ body)])
    (intercalateList CRLFb (startLine :: hdrLines)) body hfind hlen
  have hAascii : ∀ c ∈ intercalateList CRLFb (startLine :: hdrLines), c.toNat < 128 :=
    intercalate_ascii _ hascii
  simp only [recv_until_crlfs]
  rw [hloop]
  dsimp only
  rw [decodeUtf8_ok _ hAascii]
  dsimp only
  have hnl : NEWLINE.data = CRLFb := rfl
  have hsplit : pySplitOn NEWLINE (String.mk (intercalateList CRLFb (startLine :: hdrLines)))
      = (String.mk startLine) :: hdrLines.map (fun l => String.mk l) := by
    simp only [pySplitOn, splitOnSub, hnl, strData_mk]
    rw [splitOnSubF_crlf_intercalate (startLine :: hdrLines) _ (by omega) (by simp)
      (fun r hr => (hcr r hr).2)]
    simp
  rw [hsplit]
  dsimp only [List.drop]
  rw [hparse]
  dsimp only
  rw [completeContent_declared body pairs v hlook hint]
  dsimp only
  rw [decodeUtf8_ok _ hbascii]
  dsimp only [List.headD]
  exact request_make_ok _ m p ws pairs _ hstart

/-- Witness for C8: a concrete GET request with a five-byte declared body
delivered in a single read. -/
theorem framer_single_read_request_ok_witness :
    recv_until_crlfs
        [intercalateList CRLFb [("GET /index.html HTTP/1.1").data, ("Host: x").data,
          ("Content-Length: 5").data] ++ (HTTP_REQ_HEADER_END ++ ("hello").data)]
      = Except.ok (Request.mk ("GET") (strTail ("/index.html"))
          [(("host"), (" x")), (("content-length"), (" 5"))] (String.mk (("hello").data)))
    ∧ ([(("host"), (" x")), (("content-length"), (" 5"))]).all (fun kv => keyIsLower kv.1)
        = true :=
  framer_single_read_request_ok ("GET /index.html HTTP/1.1").data
    [("Host: x").data, ("Content-Length: 5").data] ("hello").data
    ("GET") ("/index.html") [("HTTP/1.1")]
    [(("host"), (" x")), (("content-length"), (" 5"))] (" 5")
    (by decide) (by decide) (by decide) (by decide) (by decide) (by decide) (by decide)
    (by decide)

/-- Claim C1 (code bug): the claim says that once the header terminator is
found the framer reads exactly the missing `content-length` bytes and
returns a body of the declared length, in particular when zero body
bytes were captured together with the headers.  The code only enters the
body-completion branch when `content_bytes_read != 0` (source line 67),
so when the first chunk ends exactly at the terminator the declared
five-byte body waiting in the next chunk is never read: the framer
returns an empty body even though `content-length` parses to `5`. -/
theorem framer_body_not_read_when_no_premature_bytes :
    recv_until_crlfs [("POST /form HTTP/1.1\r\ncontent-length: 5\r\n\r\n").data, ("hello").data]
      = Except.ok (Request.mk ("POST") ("form") [(("content-length"), (" 5"))] (""))
    ∧ pyInt (" 5") = Except.ok 5
    ∧ ("" : String).length = 0 := by
  decide

/-- Claim C2 (code bug): the claim says the framer detects the double-CRLF
terminator in the accumulated bytes even when it straddles a chunk
boundary.  The code tests `HTTP_REQ_HEADER_END in data` against each
chunk alone (source line 55), so with the terminator split as
`...\r\n\r` / `\n` it never finds it, accumulates everything as header
data, and the header parser then raises `ValueError` on the resulting
empty lines — an uncaught exception, though the terminator does occur in
the accumulation of the two chunks. -/
theorem framer_terminator_straddling_chunks_error :
    recv_until_crlfs [("GET / HTTP/1.1\r\n\r").data, ("\n").data]
      = Except.error ("ValueError: not enough values to unpack (expected 2, got 1)")
    ∧ containsSub HTTP_REQ_HEADER_END (("GET / HTTP/1.1\r\n\r").data ++ ("\n").data) = true := by
  decide

/-- Claim C9 (code bug): the claim says an empty start line must not crash
the framer and must surface as a signalled malformed-request condition
rather than an uncaught exception.  `Request.__init__` unpacks
`start_line.split()` into two names (source line 35), which on the empty
start line raises an uncaught `ValueError` that propagates out of
`recv_until_crlfs`; the error value models exactly that uncaught
exception. -/
theorem framer_empty_start_line_uncaught_error :
    recv_until_crlfs [("\r\n\r\n").data]
      = Except.error ("ValueError: not enough values to unpack (expected at least 2)") := by
  decide

theorem build_some_status_data (st : String) (hs : List String) (content : Option String) :
    ∃ out, ResponseBuilder.build (ResponseBuilder.mk hs (some st) content) = Except.ok out
      ∧ out.data = st.data ++ CRLFb ++ (pyJoin NEWLINE hs).data ++ CRLFb ++ CRLFb
          ++ (content.getD ("")).data := by
  cases content with
  | none =>
    refine ⟨st ++ NEWLINE ++ pyJoin NEWLINE hs ++ NEWLINE ++ NEWLINE, rfl, ?_⟩
    simp only [strData_append, Option.getD]
    show _ = st.data ++ CRLFb ++ (pyJoin NEWLINE hs).data ++ CRLFb ++ CRLFb ++ []
    simp [CRLFb]
    rfl
  | some c =>
    by_cases hc : c = ""
    · subst hc
      refine ⟨st ++ NEWLINE ++ pyJoin NEWLINE hs ++ NEWLINE ++ NEWLINE, ?_, ?_⟩
      · show ResponseBuilder.build (ResponseBuilder.mk hs (some st) (some (""))) = _
        unfold ResponseBuilder.build
        dsimp only
        rw [if_pos rfl]
      · simp only [strData_append, Option.getD]
        show _ = st.data ++ CRLFb ++ (pyJoin NEWLINE hs).data ++ CRLFb ++ CRLFb ++ ("").data
        simp [CRLFb]
        rfl
    · refine ⟨st ++ NEWLINE ++ pyJoin NEWLINE hs ++ NEWLINE ++ NEWLINE ++ c, ?_, ?_⟩
      · unfold ResponseBuilder.build
        dsimp only
        rw [if_neg hc]
      · simp only [strData_append, Option.getD]
        rfl

theorem statusHeaders_intercalate (st : String) (hs : List String) (hne : hs ≠ []) :
    st.data ++ CRLFb ++ (pyJoin NEWLINE hs).data
      = intercalateList CRLFb (st.data :: hs.map String.data) := by
  cases hs with
  | nil => exact absurd rfl hne
  | cons h t =>
    rw [pyJoin_data]
    have hnl : NEWLINE.data = CRLFb := rfl
    rw [hnl]
    show st.data ++ CRLFb ++ intercalateList CRLFb (h.data :: t.map String.data)
        = intercalateList CRLFb (st.data :: h.data :: t.map String.data)
    rfl

theorem headerLine_data_ne_nil (k : String) (v : StrOrInt) : (headerLine k v).data ≠ [] := by
  intro h
  have hlen := congrArg List.length h
  unfold headerLine at hlen
  rw [strData_append, strData_append] at hlen
  simp at hlen

/-- Claim C3 (amended): any reachable builder state in which `set_status`
was called and at least one header was added — the state is
`ResponseBuilder.mk` of the formatted header lines, the formatted status
line of the last `set_status` call, and the last `set_content` payload
if any — builds to bytes whose header section, the serialized status
line and header lines, is followed by exactly one double-CRLF separator
and then the body; when `set_content` was never called the first
terminator occurrence is the only one and nothing follows it.  The
claim as frozen fails for sequences with no `add_header` call (see the
counterexample): the amendment adds that at least one header was added
and that the supplied status and header text contain no CR, which every
call site of this server satisfies. -/
theorem build_single_blank_line_separator
    (scode : StrOrInt) (smsg : String) (hs : List (String × StrOrInt))
    (content : Option String)
    (hhs : hs ≠ [])
    (hstcr : '\r' ∉ (("HTTP/1.1 ") ++ formatVal scode ++ (" ") ++ smsg).data)
    (hhcr : ∀ kv ∈ hs, '\r' ∉ (headerLine kv.1 kv.2).data) :
    ∃ out,
      ResponseBuilder.build
          (ResponseBuilder.mk (hs.map (fun kv => headerLine kv.1 kv.2))
            (some (("HTTP/1.1 ") ++ formatVal scode ++ (" ") ++ smsg)) content)
        = Except.ok out
      ∧ out.data
          = intercalateList CRLFb
              ((("HTTP/1.1 ") ++ formatVal scode ++ (" ") ++ smsg).data
                :: (hs.map (fun kv => headerLine kv.1 kv.2)).map String.data)
            ++ (HTTP_REQ_HEADER_END ++ (content.getD ("")).data)
      ∧ findSub HTTP_REQ_HEADER_END out.data
          = some (intercalateList CRLFb
              ((("HTTP/1.1 ") ++ formatVal scode ++ (" ") ++ smsg).data
                :: (hs.map (fun kv => headerLine kv.1 kv.2)).map String.data)).length
      ∧ (content = none →
          out.data.length
            = (intercalateList CRLFb
                ((("HTTP/1.1 ") ++ formatVal scode ++ (" ") ++ smsg).data
                  :: (hs.map (fun kv => headerLine kv.1 kv.2)).map String.data)).length + 4
          ∧ ∀ i, HTTP_REQ_HEADER_END.isPrefixOf (out.data.drop i) = true →
              i = (intercalateList CRLFb
                ((("HTTP/1.1 ") ++ formatVal scode ++ (" ") ++ smsg).data
                  :: (hs.map (fun kv => headerLine kv.1 kv.2)).map String.data)).length) := by
  obtain ⟨out, hbuild, hdata⟩ :=
    build_some_status_data (("HTTP/1.1 ") ++ formatVal scode ++ (" ") ++ smsg)
      (hs.map (fun kv => headerLine kv.1 kv.2)) content
  have hlines : hs.map (fun kv => headerLine kv.1 kv.2) ≠ [] := by
    intro hcontra
    exact hhs (List.map_eq_nil_iff.mp hcontra)
  have hshape : out.data
      = intercalateList CRLFb
          ((("HTTP/1.1 ") ++ formatVal scode ++ (" ") ++ smsg).data
            :: (hs.map (fun kv => headerLine kv.1 kv.2)).map String.data)
        ++ (HTTP_REQ_HEADER_END ++ (content.getD ("")).data) := by
    rw [hdata, ← statusHeaders_intercalate _ _ hlines]
    simp [List.append_assoc, CRLFb, HTTP_REQ_HEADER_END]
  have hparts : ∀ l ∈ (("HTTP/1.1 ") ++ formatVal scode ++ (" ") ++ smsg).data
      :: (hs.map (fun kv => headerLine kv.1 kv.2)).map String.data, l ≠ [] ∧ '\r' ∉ l := by
    intro l hl
    rcases List.mem_cons.mp hl with hst | hln
    · constructor
      · rw [hst]
        intro hnil
        have := congrArg List.length hnil
        rw [strData_append, strData_append, strData_append] at this
        simp at this
      · rw [hst]; exact hstcr
    · obtain ⟨l0, hl0, hl0e⟩ := List.mem_map.mp hln
      obtain ⟨kv, hkv, hkve⟩ := List.mem_map.mp hl0
      constructor
      · rw [← hl0e, ← hkve]
        exact headerLine_data_ne_nil kv.1 kv.2
      · rw [← hl0e, ← hkve]
        exact hhcr kv hkv
  have hfind : findSub HTTP_REQ_HEADER_END out.data
      = some (intercalateList CRLFb
          ((("HTTP/1.1 ") ++ formatVal scode ++ (" ") ++ smsg).data
            :: (hs.map (fun kv => headerLine kv.1 kv.2)).map String.data)).length := by
    rw [hshape]
    exact findSub_term_payload _ _ (by simp) hparts
  refine ⟨out, hbuild, hshape, hfind, ?_⟩
  intro hnone
  subst hnone
  have hlen4 : out.data.length
      = (intercalateList CRLFb
          ((("HTTP/1.1 ") ++ formatVal scode ++ (" ") ++ smsg).data
            :: (hs.map (fun kv => headerLine kv.1 kv.2)).map String.data)).length + 4 := by
    rw [hshape]
    simp [HTTP_REQ_HEADER_END, Option.getD]
  refine ⟨hlen4, ?_⟩
  intro i hi
  by_cases hlt : i < (intercalateList CRLFb
      ((("HTTP/1.1 ") ++ formatVal scode ++ (" ") ++ smsg).data
        :: (hs.map (fun kv => headerLine kv.1 kv.2)).map String.data)).length
  · have := findSub_min _ _ _ hfind i hlt
    rw [this] at hi
    cases hi
  · have hge := isPrefixOf_length_le _ _ hi
    rw [List.length_drop, hlen4] at hge
    have h4 : HTTP_REQ_HEADER_END.length = 4 := rfl
    rw [h4] at hge
    omega

/-- Counterexample to claim C3 as frozen: a sequence in which `set_status`
was called but no header was added.  `build()` emits
`status + CRLF + "".join([]) + CRLF + CRLF`, i.e. three consecutive
CRLFs: the double-CRLF separator occurs at two positions (31 and 33),
not exactly one, and although `set_content` was never called two bytes
(a CRLF) follow the first blank-line separator. -/
theorem build_without_headers_two_blank_lines :
    ResponseBuilder.build
        ((ResponseBuilder.init).set_status (Sum.inl ("405")) ("METHOD NOT ALLOWED"))
      = Except.ok ("HTTP/1.1 405 METHOD NOT ALLOWED\r\n\r\n\r\n")
    ∧ countSub HTTP_REQ_HEADER_END (("HTTP/1.1 405 METHOD NOT ALLOWED\r\n\r\n\r\n").data) = 2
    ∧ findSub HTTP_REQ_HEADER_END (("HTTP/1.1 405 METHOD NOT ALLOWED\r\n\r\n\r\n").data)
        = some 31
    ∧ (("HTTP/1.1 405 METHOD NOT ALLOWED\r\n\r\n\r\n").data).drop (31 + 4) = ['\r', '\n'] := by
  decide

/-- Witness for the amended C3 at a concrete 404 builder with one header
and no content. -/
theorem build_single_blank_line_separator_witness :
    ∃ out,
      ResponseBuilder.build
          (ResponseBuilder.mk
            ([(("Connection"), Sum.inl ("close"))].map (fun kv => headerLine kv.1 kv.2))
            (some (("HTTP/1.1 ") ++ formatVal (Sum.inl ("404")) ++ (" ") ++ ("NOT FOUND")))
            none)
        = Except.ok out
      ∧ out.data
          = intercalateList CRLFb
              ((("HTTP/1.1 ") ++ formatVal (Sum.inl ("404")) ++ (" ") ++ ("NOT FOUND")).data
                :: (([(("Connection"), Sum.inl ("close"))].map
                  (fun kv => headerLine kv.1 kv.2)).map String.data))
            ++ (HTTP_REQ_HEADER_END ++ ((none : Option String).getD ("")).data)
      ∧ findSub HTTP_REQ_HEADER_END out.data
          = some (intercalateList CRLFb
              ((("HTTP/1.1 ") ++ formatVal (Sum.inl ("404")) ++ (" ") ++ ("NOT FOUND")).data
                :: (([(("Connection"), Sum.inl ("close"))].map
                  (fun kv => headerLine kv.1 kv.2)).map String.data))).length
      ∧ ((none : Option String) = none →
          out.data.length
            = (intercalateList CRLFb
                ((("HTTP/1.1 ") ++ formatVal (Sum.inl ("404")) ++ (" ") ++ ("NOT FOUND")).data
                  :: (([(("Connection"), Sum.inl ("close"))].map
                    (fun kv => headerLine kv.1 kv.2)).map String.data))).length + 4
          ∧ ∀ i, HTTP_REQ_HEADER_END.isPrefixOf (out.data.drop i) = true →
              i = (intercalateList CRLFb
                ((("HTTP/1.1 ") ++ formatVal (Sum.inl ("404")) ++ (" ") ++ ("NOT FOUND")).data
                  :: (([(("Connection"), Sum.inl ("close"))].map
                    (fun kv => headerLine kv.1 kv.2)).map String.data))).length) :=
  build_single_blank_line_separator (Sum.inl ("404")) ("NOT FOUND")
    [(("Connection"), Sum.inl ("close"))] none (by decide) (by decide)
    (by intro kv hkv; rcases List.mem_singleton.mp hkv with rfl; decide)

/-- Claim C4: a GET request whose path does not contain `"redirect"` and
does not exist on the filesystem is answered 404, with the contents of
`404.html` as body and a `Connection: close` header, and the permission
oracle is never consulted: the response is identical under any two
permission assignments. -/
theorem get_missing_file_404_ignores_permissions (fs : FileSystem) (req : Request)
    (hm : req.method = "GET")
    (hr : pyContains ("redirect") req.path = false)
    (he : file_exists fs req.path = false) :
    process_response fs req
      = Except.ok (("HTTP/1.1 404 NOT FOUND\r\nConnection: close\r\n\r\n")
          ++ get_file_contents fs ("404.html"))
    ∧ ∀ p1 p2 : String → Bool,
        process_response (FileSystem.mk fs.pathExists p1 fs.fileData) req
          = process_response (FileSystem.mk fs.pathExists p2 fs.fileData) req := by
  have hmain : ∀ g : FileSystem, g.pathExists req.path = false →
      process_response g req
        = Except.ok (("HTTP/1.1 404 NOT FOUND\r\nConnection: close\r\n\r\n")
            ++ g.fileData ("404.html")) := by
    intro g hge
    unfold process_response
    rw [hm, if_pos rfl]
    unfold get_request get_request_builder
    rw [if_neg (by simp [hr])]
    rw [if_pos (show (!(file_exists g req.path)) = true by
      unfold file_exists; rw [hge]; rfl)]
    unfold ResponseBuilder.init ResponseBuilder.set_status ResponseBuilder.set_content
      ResponseBuilder.add_header get_file_contents
    dsimp only
    unfold ResponseBuilder.build
    dsimp only
    have hout : (("HTTP/1.1 ") ++ formatVal (Sum.inl ("404")) ++ (" ") ++ ("NOT FOUND"))
        ++ NEWLINE ++ pyJoin NEWLINE ([] ++ [headerLine ("Connection") (Sum.inl ("close"))])
        ++ NEWLINE ++ NEWLINE
        = ("HTTP/1.1 404 NOT FOUND\r\nConnection: close\r\n\r\n") := by decide
    by_cases hc : g.fileData ("404.html") = ""
    · rw [if_pos hc, hc, hout]
      rw [str_append_empty]
    · rw [if_neg hc, hout]
  have he' : fs.pathExists req.path = false := he
  refine ⟨hmain fs he', ?_⟩
  intro p1 p2
  rw [hmain (FileSystem.mk fs.pathExists p1 fs.fileData) he',
    hmain (FileSystem.mk fs.pathExists p2 fs.fileData) he']

/-- Witness for C4 at a concrete missing path. -/
theorem get_missing_file_404_ignores_permissions_witness :
    process_response
        (FileSystem.mk (fun _ => false) (fun _ => true) (fun _ => ("<h1>missing</h1>")))
        (Request.mk ("GET") ("nope.html") [] (""))
      = Except.ok (("HTTP/1.1 404 NOT FOUND\r\nConnection: close\r\n\r\n")
          ++ get_file_contents
              (FileSystem.mk (fun _ => false) (fun _ => true) (fun _ => ("<h1>missing</h1>")))
              ("404.html"))
    ∧ ∀ p1 p2 : String → Bool,
        process_response
            (FileSystem.mk
              (FileSystem.mk (fun _ => false) (fun _ => true)
                (fun _ => ("<h1>missing</h1>"))).pathExists
              p1
              (FileSystem.mk (fun _ => false) (fun _ => true)
                (fun _ => ("<h1>missing</h1>"))).fileData)
            (Request.mk ("GET") ("nope.html") [] (""))
          = process_response
              (FileSystem.mk
                (FileSystem.mk (fun _ => false) (fun _ => true)
                  (fun _ => ("<h1>missing</h1>"))).pathExists
                p2
                (FileSystem.mk (fun _ => false) (fun _ => true)
                  (fun _ => ("<h1>missing</h1>"))).fileData)
              (Request.mk ("GET") ("nope.html") [] ("")) :=
  get_missing_file_404_ignores_permissions
    (FileSystem.mk (fun _ => false) (fun _ => true) (fun _ => ("<h1>missing</h1>")))
    (Request.mk ("GET") ("nope.html") [] (""))
    rfl (by decide) rfl

/-- Claim C5: a POST request whose decoded body is `a=1&b=2` is answered
200 with an HTML table of exactly the rows (a,1) and (b,2) in that
order, and a `Content-Length` header of 73, the exact byte length of the
returned ASCII HTML. -/
theorem post_form_echo_table (fs : FileSystem) (req : Request)
    (hm : req.method = "POST")
    (hc : unquote_plus req.content = "a=1&b=2") :
    process_response fs req
      = Except.ok
          ("HTTP/1.1 200 OK\r\nAllow: POST\r\nContent-Length: 73\r\n\r\n<table><tr><td>a</td><td>1</td></tr><tr><td>b</td><td>2</td></tr></table>")
    ∧ ("<table><tr><td>a</td><td>1</td></tr><tr><td>b</td><td>2</td></tr></table>" : String).length
        = 73
    ∧ (("<table><tr><td>a</td><td>1</td></tr><tr><td>b</td><td>2</td></tr></table>").data).all
        (fun c => c.toNat < 128) = true := by
  refine ⟨?_, by decide, by decide⟩
  unfold process_response
  rw [hm]
  rw [if_neg (by decide)]
  rw [if_pos rfl]
  unfold post_request post_request_builder
  dsimp only
  rw [hc]
  decide

/-- Witness for C5 at a concrete POST request. -/
theorem post_form_echo_table_witness :
    process_response (FileSystem.mk (fun _ => false) (fun _ => false) (fun _ => ("")))
        (Request.mk ("POST") ("form") [] ("a=1&b=2"))
      = Except.ok
          ("HTTP/1.1 200 OK\r\nAllow: POST\r\nContent-Length: 73\r\n\r\n<table><tr><td>a</td><td>1</td></tr><tr><td>b</td><td>2</td></tr></table>")
    ∧ ("<table><tr><td>a</td><td>1</td></tr><tr><td>b</td><td>2</td></tr></table>" : String).length
        = 73
    ∧ (("<table><tr><td>a</td><td>1</td></tr><tr><td>b</td><td>2</td></tr></table>").data).all
        (fun c => c.toNat < 128) = true :=
  post_form_echo_table (FileSystem.mk (fun _ => false) (fun _ => false) (fun _ => ("")))
    (Request.mk ("POST") ("form") [] ("a=1&b=2")) rfl (by decide)

/-- Claim C7: a GET request whose path contains `"redirect"` and whose
query parameters resolve `selector` to `google` and `text` to `cats` is
answered 307 with a `Location` header containing
`https://www.google.com/search?q=cats`, and nothing follows the blank
line: the response has no body. -/
theorem get_redirect_google_307 (fs : FileSystem) (req : Request)
    (hm : req.method = "GET")
    (hr : pyContains ("redirect") req.path = true)
    (hsel : parse_qs_get (urlparse_query req.path) ("selector") = "google")
    (htext : parse_qs_get (urlparse_query req.path) ("text") = "cats") :
    process_response fs req
      = Except.ok
          ("HTTP/1.1 307 Redirect\r\nLocation: https://www.google.com/search?q=cats\r\n\r\n")
    ∧ pyContains ("https://www.google.com/search?q=cats")
        ("HTTP/1.1 307 Redirect\r\nLocation: https://www.google.com/search?q=cats\r\n\r\n")
        = true := by
  refine ⟨?_, by decide⟩
  unfold process_response
  rw [hm, if_pos rfl]
  unfold get_request get_request_builder
  rw [if_pos hr]
  unfold build_url
  dsimp only
  rw [hsel, htext]
  decide

/-- Witness for C7 at a concrete redirect request. -/
theorem get_redirect_google_307_witness :
    process_response (FileSystem.mk (fun _ => false) (fun _ => false) (fun _ => ("")))
        (Request.mk ("GET") ("redirect?selector=google&text=cats") [] (""))
      = Except.ok
          ("HTTP/1.1 307 Redirect\r\nLocation: https://www.google.com/search?q=cats\r\n\r\n")
    ∧ pyContains ("https://www.google.com/search?q=cats")
        ("HTTP/1.1 307 Redirect\r\nLocation: https://www.google.com/search?q=cats\r\n\r\n")
        = true :=
  get_redirect_google_307 (FileSystem.mk (fun _ => false) (fun _ => false) (fun _ => ("")))
    (Request.mk ("GET") ("redirect?selector=google&text=cats") [] (""))
    rfl (by decide) (by decide) (by decide)

theorem headerLine_key_isPrefix (k : String) (v : StrOrInt) :
    ((k ++ (":")).data).isPrefixOf ((headerLine k v).data) = true := by
  unfold headerLine
  rw [strData_append, strData_append, strData_append]
  have h1 : (":" : String).data = [':'] := rfl
  have h2 : (": " : String).data = ':' :: [' '] := rfl
  rw [h1, h2]
  have hsh : k.data ++ ':' :: [' '] ++ (formatVal v).data
      = (k.data ++ [':']) ++ ([' '] ++ (formatVal v).data) := by simp
  rw [hsh]
  exact isPrefixOf_self_append _ _

theorem contentLength_not_contentType (n : Nat) :
    ((("Content-Type") ++ (":")).data).isPrefixOf
        ((headerLine ("Content-Length") (Sum.inr n)).data) = false := by
  unfold headerLine formatVal
  rw [strData_append, strData_append]
  rw [isPrefixOf_append_of_length_le _ _ _ (by decide)]
  decide

theorem contentLength_not_connection (n : Nat) :
    ((("Connection") ++ (":")).data).isPrefixOf
        ((headerLine ("Content-Length") (Sum.inr n)).data) = false := by
  unfold headerLine formatVal
  rw [strData_append, strData_append]
  rw [isPrefixOf_append_of_length_le _ _ _ (by decide)]
  decide

/-- Counterexample to claim C6 as frozen: the POST handler's 200 response
carries only `Allow` and `Content-Length` — `Connection` is never added
(the call is commented out in the source, line 422) and no
`Content-Type` is set — so not every 200 response carries all three of
Content-Type, Connection and Content-Length. -/
theorem post_200_lacks_content_type_and_connection :
    post_request (Request.mk ("POST") ("form") [] ("a=1&b=2"))
      = Except.ok
          ("HTTP/1.1 200 OK\r\nAllow: POST\r\nContent-Length: 73\r\n\r\n<table><tr><td>a</td><td>1</td></tr><tr><td>b</td><td>2</td></tr></table>")
    ∧ pyContains ("Content-Type")
        ("HTTP/1.1 200 OK\r\nAllow: POST\r\nContent-Length: 73\r\n\r\n<table><tr><td>a</td><td>1</td></tr><tr><td>b</td><td>2</td></tr></table>")
        = false
    ∧ pyContains ("Connection")
        ("HTTP/1.1 200 OK\r\nAllow: POST\r\nContent-Length: 73\r\n\r\n<table><tr><td>a</td><td>1</td></tr><tr><td>b</td><td>2</td></tr></table>")
        = false := by
  decide

/-- Claim C6 (amended): every 200 response produced by the GET handler
carries Content-Type, Connection and Content-Length headers; a 200
response produced by the POST handler carries Content-Length but neither
Content-Type nor Connection.  The claim as frozen asserts all three for
the POST handler as well, which the counterexample refutes. -/
theorem status_200_headers_by_handler :
    (∀ (fs : FileSystem) (req : Request),
        pyContains ("redirect") req.path = false →
        file_exists fs req.path = true →
        has_permission_other fs req.path = true →
        hasHeaderB (get_request_builder fs req) ("Content-Type") = true
        ∧ hasHeaderB (get_request_builder fs req) ("Connection") = true
        ∧ hasHeaderB (get_request_builder fs req) ("Content-Length") = true
        ∧ (get_request_builder fs req).status
            = some (("HTTP/1.1 ") ++ formatVal (Sum.inl ("200")) ++ (" ") ++ ("OK")))
    ∧ (∀ (req : Request) (b : ResponseBuilder),
        post_request_builder req = Except.ok b →
        b.status = some (("HTTP/1.1 ") ++ formatVal (Sum.inl ("200")) ++ (" ") ++ ("OK"))
        ∧ hasHeaderB b ("Content-Length") = true
        ∧ hasHeaderB b ("Content-Type") = false
        ∧ hasHeaderB b ("Connection") = false) := by
  constructor
  · intro fs req hr he hp
    unfold get_request_builder
    rw [if_neg (by simp [hr])]
    rw [if_neg (show ¬ ((!(file_exists fs req.path)) = true) by rw [he]; decide)]
    rw [if_neg (show ¬ ((!(has_permission_other fs req.path)) = true) by rw [hp]; decide)]
    unfold ResponseBuilder.init ResponseBuilder.set_status ResponseBuilder.add_header
      ResponseBuilder.set_content
    dsimp only
    refine ⟨?_, ?_, ?_, rfl⟩
    · unfold hasHeaderB
      simp only [List.nil_append, List.cons_append, List.any_cons, List.any_nil]
      rw [headerLine_key_isPrefix ("Content-Type")]
      simp only [Bool.true_or]
    · unfold hasHeaderB
      simp only [List.nil_append, List.cons_append, List.any_cons, List.any_nil]
      rw [headerLine_key_isPrefix ("Connection")]
      simp only [Bool.true_or, Bool.or_true]
    · unfold hasHeaderB
      simp only [List.nil_append, List.cons_append, List.any_cons, List.any_nil]
      rw [headerLine_key_isPrefix ("Content-Length")]
      simp only [Bool.true_or, Bool.or_true]
  · intro req b hb
    unfold post_request_builder at hb
    dsimp only at hb
    cases hparse : parse_post_request (unquote_plus req.content) with
    | error e => rw [hparse] at hb; cases hb
    | ok fc =>
      rw [hparse] at hb
      unfold ResponseBuilder.init ResponseBuilder.set_status ResponseBuilder.add_header
        ResponseBuilder.set_content at hb
      dsimp only at hb
      cases hb
      refine ⟨rfl, ?_, ?_, ?_⟩
      · unfold hasHeaderB
        simp only [List.nil_append, List.cons_append, List.any_cons, List.any_nil]
        rw [headerLine_key_isPrefix ("Content-Length")]
        simp only [Bool.true_or, Bool.or_true]
      · unfold hasHeaderB
        simp only [List.nil_append, List.cons_append, List.any_cons, List.any_nil]
        rw [contentLength_not_contentType]
        rw [show ((("Content-Type") ++ (":")).data).isPrefixOf
            ((headerLine ("Allow") (Sum.inl ("POST"))).data) = false from by decide]
        simp only [Bool.false_or, Bool.or_false]
      · unfold hasHeaderB
        simp only [List.nil_append, List.cons_append, List.any_cons, List.any_nil]
        rw [contentLength_not_connection]
        rw [show ((("Connection") ++ (":")).data).isPrefixOf
            ((headerLine ("Allow") (Sum.inl ("POST"))).data) = false from by decide]
        simp only [Bool.false_or, Bool.or_false]

/-- Witness for the amended C6: a concrete readable GET target and a
concrete POST request. -/
theorem status_200_headers_by_handler_witness :
    (hasHeaderB
        (get_request_builder (FileSystem.mk (fun _ => true) (fun _ => true) (fun _ => ("hi")))
          (Request.mk ("GET") ("a.html") [] ("")))
        ("Content-Type") = true
      ∧ hasHeaderB
          (get_request_builder (FileSystem.mk (fun _ => true) (fun _ => true) (fun _ => ("hi")))
            (Request.mk ("GET") ("a.html") [] ("")))
          ("Connection") = true
      ∧ hasHeaderB
          (get_request_builder (FileSystem.mk (fun _ => true) (fun _ => true) (fun _ => ("hi")))
            (Request.mk ("GET") ("a.html") [] ("")))
          ("Content-Length") = true
      ∧ (get_request_builder (FileSystem.mk (fun _ => true) (fun _ => true) (fun _ => ("hi")))
          (Request.mk ("GET") ("a.html") [] (""))).status
          = some (("HTTP/1.1 ") ++ formatVal (Sum.inl ("200")) ++ (" ") ++ ("OK")))
    ∧ ((ResponseBuilder.mk [("Allow: POST"), ("Content-Length: 73")]
          (some ("HTTP/1.1 200 OK"))
          (some ("<table><tr><td>a</td><td>1</td></tr><tr><td>b</td><td>2</td></tr></table>"))).status
          = some (("HTTP/1.1 ") ++ formatVal (Sum.inl ("200")) ++ (" ") ++ ("OK"))
      ∧ hasHeaderB (ResponseBuilder.mk [("Allow: POST"), ("Content-Length: 73")]
          (some ("HTTP/1.1 200 OK"))
          (some ("<table><tr><td>a</td><td>1</td></tr><tr><td>b</td><td>2</td></tr></table>")))
          ("Content-Length") = true
      ∧ hasHeaderB (ResponseBuilder.mk [("Allow: POST"), ("Content-Length: 73")]
          (some ("HTTP/1.1 200 OK"))
          (some ("<table><tr><td>a</td><td>1</td></tr><tr><td>b</td><td>2</td></tr></table>")))
          ("Content-Type") = false
      ∧ hasHeaderB (ResponseBuilder.mk [("Allow: POST"), ("Content-Length: 73")]
          (some ("HTTP/1.1 200 OK"))
          (some ("<table><tr><td>a</td><td>1</td></tr><tr><td>b</td><td>2</td></tr></table>")))
          ("Connection") = false) :=
  ⟨status_200_headers_by_handler.1
      (FileSystem.mk (fun _ => true) (fun _ => true) (fun _ => ("hi")))
      (Request.mk ("GET") ("a.html") [] ("")) (by decide) rfl rfl,
    status_200_headers_by_handler.2 (Request.mk ("POST") ("form") [] ("a=1&b=2"))
      (ResponseBuilder.mk [("Allow: POST"), ("Content-Length: 73")]
        (some ("HTTP/1.1 200 OK"))
        (some ("<table><tr><td>a</td><td>1</td></tr><tr><td>b</td><td>2</td></tr></table>")))
      (by decide)⟩

theorem strAppend_assoc (a b c : String) : a ++ b ++ c = a ++ (b ++ c) := by
  apply strExt
  rw [strData_append, strData_append, strData_append, strData_append, List.append_assoc]

/-- Claim C10: `set_content` with empty content leaves `build()` output
identical to a builder whose content was never set — `if self.content:`
treats the empty byte string like `None` — and consequently a GET of an
existing, readable, empty file yields a 200 response carrying
`Content-Length: 0` whose bytes end at the blank line: zero body
bytes. -/
theorem set_content_empty_behaves_as_unset :
    (∀ b : ResponseBuilder,
        ResponseBuilder.build (b.set_content (""))
          = ResponseBuilder.build (ResponseBuilder.mk b.headers b.status none))
    ∧ (∀ (fs : FileSystem) (req : Request),
        req.method = "GET" →
        pyContains ("redirect") req.path = false →
        file_exists fs req.path = true →
        has_permission_other fs req.path = true →
        get_file_contents fs req.path = "" →
        process_response fs req
          = Except.ok (("HTTP/1.1 200 OK\r\nContent-Type: ")
              ++ get_file_mime_type ((pySplitOn (".") req.path).getLastD (""))
              ++ ("\r\nConnection: close\r\nContent-Length: 0\r\n\r\n"))) := by
  constructor
  · intro b
    cases b with
    | mk hs st c =>
      cases st with
      | none => rfl
      | some s =>
        unfold ResponseBuilder.set_content ResponseBuilder.build
        dsimp only
        rw [if_pos rfl]
  · intro fs req hm hr he hp hfd
    unfold process_response
    rw [hm, if_pos rfl]
    unfold get_request get_request_builder
    rw [if_neg (by simp [hr])]
    rw [if_neg (show ¬ ((!(file_exists fs req.path)) = true) by rw [he]; decide)]
    rw [if_neg (show ¬ ((!(has_permission_other fs req.path)) = true) by rw [hp]; decide)]
    unfold get_file_binary_contents get_file_contents
    unfold get_file_contents at hfd
    simp only [hfd, ite_self]
    unfold ResponseBuilder.init ResponseBuilder.set_status ResponseBuilder.add_header
      ResponseBuilder.set_content
    dsimp only
    unfold ResponseBuilder.build
    dsimp only
    rw [if_pos rfl]
    simp only [List.nil_append, List.singleton_append, List.cons_append]
    simp only [pyJoin]
    unfold NEWLINE headerLine
    dsimp only [formatVal]
    rw [show Nat.repr (String.length ("")) = ("0") from rfl]
    rw [show ("HTTP/1.1 200 OK\r\nContent-Type: " : String)
        = ("HTTP/1.1 ") ++ ("200") ++ (" ") ++ ("OK") ++ ("\r\n") ++ ("Content-Type") ++ (": ")
        from by decide]
    rw [show ("\r\nConnection: close\r\nContent-Length: 0\r\n\r\n" : String)
        = ("\r\n") ++ ("Connection") ++ (": ") ++ ("close") ++ ("\r\n") ++ ("Content-Length")
          ++ (": ") ++ ("0") ++ ("\r\n") ++ ("\r\n")
        from by decide]
    simp only [strAppend_assoc]

/-- Witness for C10: a concrete builder with empty content and a concrete
empty readable file. -/
theorem set_content_empty_behaves_as_unset_witness :
    ResponseBuilder.build
        ((ResponseBuilder.mk [("X-A: y")] (some ("HTTP/1.1 200 OK")) none).set_content (""))
      = ResponseBuilder.build
          (ResponseBuilder.mk
            (ResponseBuilder.mk [("X-A: y")] (some ("HTTP/1.1 200 OK")) none).headers
            (ResponseBuilder.mk [("X-A: y")] (some ("HTTP/1.1 200 OK")) none).status
            none)
    ∧ process_response (FileSystem.mk (fun _ => true) (fun _ => true) (fun _ => ("")))
        (Request.mk ("GET") ("empty.txt") [] (""))
      = Except.ok (("HTTP/1.1 200 OK\r\nContent-Type: ")
          ++ get_file_mime_type ((pySplitOn (".") ("empty.txt")).getLastD (""))
          ++ ("\r\nConnection: close\r\nContent-Length: 0\r\n\r\n")) :=
  ⟨set_content_empty_behaves_as_unset.1
      (ResponseBuilder.mk [("X-A: y")] (some ("HTTP/1.1 200 OK")) none),
    set_content_empty_behaves_as_unset.2
      (FileSystem.mk (fun _ => true) (fun _ => true) (fun _ => ("")))
      (Request.mk ("GET") ("empty.txt") [] (""))
      rfl (by decide) rfl rfl rfl⟩
